import Mathlib

/-!
Verification development for the `bitcoin-backup` library.

Shallow embedding of the encryption/decryption engine (`src/crypto.ts`),
the public API wrappers and payload validator (`src/index.ts`), and the
shape-inference guards (`src/guards.ts`).

Modelling conventions:
* JavaScript values that flow through the engine are JSON-derived, so they
  are modelled by the inductive `Json` below (objects as association lists,
  arrays as lists).  `undefined` never appears as a stored value in a
  JSON-parsed object, so it is not represented.
* PBKDF2 (`deriveKey`) is deterministic and collision-free in the model:
  a derived key is identified with its `(passphrase, salt, iterations)`
  input triple, matching the spec of a correct PBKDF2.
* AES-256-GCM is modelled as ideal authenticated encryption: decryption
  with the same key and IV recovers the plaintext, decryption with any
  other key raises a `DOMException` named `OperationError` (the
  authentication-tag failure), exactly the failure mode the retry loop in
  `decryptData` branches on.
* The UTF-8 plaintext handed to `JSON.parse` is modelled by `Plain`:
  `Plain.json v` stands for a text that is syntactically valid JSON and
  parses to the value `v`, `Plain.text s` for a text `s` that is not valid
  JSON (so `JSON.parse` raises a `SyntaxError`).  This partitions all
  plaintexts, assuming the correct platform JSON codec the spec treats as
  out of scope, and `JSON.parse (JSON.stringify p) = p` for payloads.
-/

namespace BitcoinBackup

/-- JSON-derived JavaScript values. -/
inductive Json where
  | null : Json
  | bool (b : Bool) : Json
  | num (n : Int) : Json
  | str (s : String) : Json
  | arr (elems : List Json) : Json
  | obj (fields : List (String × Json)) : Json

/-- JavaScript `typeof` for `Json` values (`typeof null` is `"object"`). -/
def jsTypeof : Json → String
  | .null => "object"
  | .bool _ => "boolean"
  | .num _ => "number"
  | .str _ => "string"
  | .arr _ => "object"
  | .obj _ => "object"

/-- JavaScript truthiness for `Json` values. -/
def truthy : Json → Bool
  | .null => false
  | .bool b => b
  | .num n => n != 0
  | .str s => s != ""
  | .arr _ => true
  | .obj _ => true

/-- Whether the value is JavaScript `null`. -/
def isNull : Json → Bool
  | .null => true
  | _ => false

/-- The JavaScript `in` operator, `key in value`.  For objects this is key
membership.  For arrays, `in` is true only for canonical index strings and
for `"length"`; the engine only ever queries the fixed field names of the
backup variants (`xprv`, `ids`, `mnemonic`, `rootPk`, `wif`, `id`, `ordPk`,
`payPk`, `identityPk`, ...), none of which is numeric or `"length"`, so for
arrays the queried result is `false`. -/
def hasKey : Json → String → Bool
  | .obj fields, key => fields.any (fun f => f.1 == key)
  | _, _ => false

/-- Property access `value.key`, `none` when the result is `undefined`. -/
def getKey : Json → String → Option Json
  | .obj fields, key => (fields.find? (fun f => f.1 == key)).map (fun f => f.2)
  | _, _ => none

/-- The JavaScript test `typeof value.key === 'string'`. -/
def isStrField (v : Json) (key : String) : Bool :=
  match getKey v key with
  | some (.str _) => true
  | _ => false

/-- The backup variants distinguished by the engine (spec section 3 names in
parentheses): `BapMasterBackupLegacy` (MasterLegacy), `MasterBackupType42`
(MasterType42), `BapMemberBackup` (Member), `WifBackup` (BareSecret),
`OneSatBackup` (TriKey). -/
inductive Variant where
  | masterLegacy : Variant
  | masterType42 : Variant
  | member : Variant
  | bareSecret : Variant
  | triKey : Variant
deriving DecidableEq, Repr

/-- `isValidPayload` from `src/index.ts`: the encryption-time payload
validator, an ordered chain of structural checks returning at the first
match. -/
def isValidPayload (payload : Json) : Bool :=
  if !truthy payload || jsTypeof payload != "object" then false
  else
    -- BapMasterBackup structure (legacy XPRV format)
    (hasKey payload "xprv" && isStrField payload "xprv" &&
     hasKey payload "ids" && isStrField payload "ids" &&
     hasKey payload "mnemonic" && isStrField payload "mnemonic") ||
    -- BapMasterBackup structure (Type 42 format), requires no xprv
    (hasKey payload "rootPk" && isStrField payload "rootPk" &&
     hasKey payload "ids" && isStrField payload "ids" &&
     !hasKey payload "xprv") ||
    -- BapMemberBackup structure
    (hasKey payload "wif" && isStrField payload "wif" &&
     hasKey payload "id" && isStrField payload "id") ||
    -- WifBackup structure
    (hasKey payload "wif" && isStrField payload "wif" &&
     !hasKey payload "id" && !hasKey payload "xprv" && !hasKey payload "rootPk") ||
    -- OneSatBackup structure
    (hasKey payload "ordPk" && isStrField payload "ordPk" &&
     hasKey payload "payPk" && isStrField payload "payPk" &&
     hasKey payload "identityPk" && isStrField payload "identityPk")

/-- The variant `isValidPayload` implicitly assigns: the first of its
ordered checks that matches (order: MasterLegacy, MasterType42, Member,
BareSecret, TriKey, per the source comments). -/
def validPayloadVariant (payload : Json) : Option Variant :=
  if !truthy payload || jsTypeof payload != "object" then none
  else if hasKey payload "xprv" && isStrField payload "xprv" &&
          hasKey payload "ids" && isStrField payload "ids" &&
          hasKey payload "mnemonic" && isStrField payload "mnemonic" then
    some .masterLegacy
  else if hasKey payload "rootPk" && isStrField payload "rootPk" &&
          hasKey payload "ids" && isStrField payload "ids" &&
          !hasKey payload "xprv" then
    some .masterType42
  else if hasKey payload "wif" && isStrField payload "wif" &&
          hasKey payload "id" && isStrField payload "id" then
    some .member
  else if hasKey payload "wif" && isStrField payload "wif" &&
          !hasKey payload "id" && !hasKey payload "xprv" && !hasKey payload "rootPk" then
    some .bareSecret
  else if hasKey payload "ordPk" && isStrField payload "ordPk" &&
          hasKey payload "payPk" && isStrField payload "payPk" &&
          hasKey payload "identityPk" && isStrField payload "identityPk" then
    some .triKey
  else none

/-- The decryption-time result classifier inside `decryptData`
(`src/crypto.ts`): the guard `typeof parsedJson === 'object' &&
parsedJson !== null` followed by an ordered chain of key-presence checks
(no `typeof` checks on the field values, and no `!('xprv' in ...)` check
in the Type 42 branch).  Returns the variant of the first matching branch
(order: MasterLegacy, MasterType42, Member, TriKey, BareSecret, per the
source casts), or `none` when no branch matches. -/
def classifyDecrypted (parsedJson : Json) : Option Variant :=
  if jsTypeof parsedJson == "object" && !isNull parsedJson then
    if hasKey parsedJson "xprv" && hasKey parsedJson "ids" &&
       hasKey parsedJson "mnemonic" then some .masterLegacy
    else if hasKey parsedJson "rootPk" && hasKey parsedJson "ids" then some .masterType42
    else if hasKey parsedJson "wif" && hasKey parsedJson "id" then some .member
    else if hasKey parsedJson "ordPk" && hasKey parsedJson "payPk" &&
            hasKey parsedJson "identityPk" then some .triKey
    else if hasKey parsedJson "wif" && !hasKey parsedJson "id" &&
            !hasKey parsedJson "xprv" && !hasKey parsedJson "rootPk" then some .bareSecret
    else none
  else none

/-! Type guards from `src/guards.ts` (pure key-presence predicates). -/

/-- `isLegacyBackup` from `src/guards.ts`. -/
def isLegacyBackup (backup : Json) : Bool :=
  hasKey backup "xprv" && hasKey backup "mnemonic" && hasKey backup "ids"

/-- `isType42Backup` from `src/guards.ts`. -/
def isType42Backup (backup : Json) : Bool :=
  hasKey backup "rootPk" && hasKey backup "ids" && !hasKey backup "xprv"

/-- `isMemberBackup` from `src/guards.ts`. -/
def isMemberBackup (backup : Json) : Bool :=
  hasKey backup "wif" && hasKey backup "id" &&
  !hasKey backup "xprv" && !hasKey backup "rootPk"

/-- `isWifBackup` from `src/guards.ts`. -/
def isWifBackup (backup : Json) : Bool :=
  hasKey backup "wif" && !hasKey backup "id" &&
  !hasKey backup "xprv" && !hasKey backup "rootPk"

/-- `isOneSatBackup` from `src/guards.ts`. -/
def isOneSatBackup (backup : Json) : Bool :=
  hasKey backup "ordPk" && hasKey backup "payPk" && hasKey backup "identityPk" &&
  !hasKey backup "mnemonic" && !hasKey backup "payDerivationPath"

/-- `isVaultBackup` from `src/guards.ts`. -/
def isVaultBackup (backup : Json) : Bool :=
  hasKey backup "encryptedVault"

/-- `isYoursWalletBackup` from `src/guards.ts`. -/
def isYoursWalletBackup (backup : Json) : Bool :=
  hasKey backup "payPk" && hasKey backup "ordPk" &&
  (hasKey backup "mnemonic" || hasKey backup "payDerivationPath" ||
   hasKey backup "ordDerivationPath")

/-- `isYoursWalletZipBackup` from `src/guards.ts`. -/
def isYoursWalletZipBackup (backup : Json) : Bool :=
  hasKey backup "chromeStorage" && hasKey backup "accountData"

/-- `getBackupType` from `src/guards.ts`. -/
def getBackupType (backup : Json) : String :=
  if isLegacyBackup backup then "Legacy"
  else if isType42Backup backup then "Type42"
  else if isMemberBackup backup then "Member"
  else if isWifBackup backup then "WIF"
  else if isOneSatBackup backup then "OneSat"
  else if isVaultBackup backup then "Vault"
  else if isYoursWalletZipBackup backup then "YoursWalletZip"
  else if isYoursWalletBackup backup then "YoursWallet"
  else "Unknown"

/-! The codec engine, `src/crypto.ts`. -/

/-- Values thrown by the engine: a `DOMException` whose name is
`OperationError` (the AES-GCM authentication-tag failure raised by
`crypto.subtle.decrypt`), or an ordinary `Error` with a message.  The
check `e instanceof DOMException && e.name === 'OperationError'` is
modelled by `isOpError`. -/
inductive JsError where
  | operationError : JsError
  | error (msg : String) : JsError
deriving DecidableEq, Repr

/-- Whether the thrown value is the authentication-tag failure. -/
def isOpError : JsError → Bool
  | .operationError => true
  | .error _ => false

/-- A decrypted UTF-8 plaintext, partitioned by JSON-syntax validity:
`json v` parses to `v`, `text s` makes `JSON.parse` raise a `SyntaxError`. -/
inductive Plain where
  | json (v : Json) : Plain
  | text (s : String) : Plain

def RECOMMENDED_PBKDF2_ITERATIONS : Nat := 600000
def LEGACY_PBKDF2_ITERATIONS : Nat := 100000
def DEFAULT_PBKDF2_ITERATIONS : Nat := RECOMMENDED_PBKDF2_ITERATIONS

def SALT_LENGTH_BYTES : Nat := 16
def IV_LENGTH_BYTES : Nat := 12

/-- A key derived by `deriveKey` (PBKDF2-SHA256).  PBKDF2 is deterministic
and, in the ideal model, collision-free, so the key is identified with its
derivation inputs. -/
structure DerivedKey where
  passphrase : String
  salt : List Nat
  iterations : Nat
deriving DecidableEq

/-- `deriveKey` from `src/crypto.ts` (the iteration-count default is
resolved by the callers in this embedding). -/
def deriveKey (passphrase : String) (salt : List Nat) (iterations : Nat) : DerivedKey :=
  ⟨passphrase, salt, iterations⟩

/-- An AES-256-GCM ciphertext in the ideal authenticated-encryption model:
it remembers the key and IV it was produced with and the plaintext. -/
structure Ciphertext where
  key : DerivedKey
  iv : List Nat
  plain : Plain

/-- `crypto.subtle.encrypt` with AES-GCM in the ideal model. -/
def aesGcmEncrypt (key : DerivedKey) (iv : List Nat) (plain : Plain) : Ciphertext :=
  ⟨key, iv, plain⟩

/-- `crypto.subtle.decrypt` with AES-GCM in the ideal model: the correct
key and IV recover the plaintext, anything else fails the authentication
tag with a `DOMException` named `OperationError`. -/
def aesGcmDecrypt (key : DerivedKey) (iv : List Nat) (ct : Ciphertext) :
    Except JsError Plain :=
  if ct.key = key ∧ ct.iv = iv then .ok ct.plain else .error .operationError

/-- The stamping step of `encryptData`:
`{ ...payload, createdAt: payload.createdAt || new Date().toISOString() }`
(`now` models `new Date().toISOString()`).  The spread keeps an existing
`createdAt` property in place and otherwise appends it; `||` replaces a
falsy existing value.  `encryptData` only receives validated payloads,
which are objects, so the non-object spread semantics is not modelled. -/
def stampCreatedAt (payload : Json) (now : String) : Json :=
  match payload with
  | .obj fields =>
    let newVal : Json :=
      match getKey (.obj fields) "createdAt" with
      | some v => if truthy v then v else .str now
      | none => .str now
    if hasKey (.obj fields) "createdAt" then
      .obj (fields.map (fun f => if f.1 == "createdAt" then (f.1, newVal) else f))
    else
      .obj (fields ++ [("createdAt", newVal)])
  | other => other

/-- The result of `encryptData`: models
`base64(salt ‖ iv ‖ ciphertext)`.  The framing fields are kept structured;
re-encoding and re-splitting are inverse by the correct-codec assumption,
and the decoded length is always at least `16 + 12 + 16` (salt, IV, and
the GCM tag alone), so a well-formed backup always passes the length check
in `decryptData`. -/
structure EncryptedBackupStr where
  salt : List Nat
  iv : List Nat
  ct : Ciphertext

/-- `encryptData` from `src/crypto.ts`.  `salt` and `iv` model the outputs
of the two `crypto.getRandomValues` calls, `now` the timestamp; the
serialized plaintext is the JSON text of the stamped payload, which parses
back to it (`Plain.json`). -/
def encryptData (payload : Json) (passphrase : String) (iterations? : Option Nat)
    (salt iv : List Nat) (now : String) : EncryptedBackupStr :=
  let key := deriveKey passphrase salt (iterations?.getD RECOMMENDED_PBKDF2_ITERATIONS)
  let payloadToEncrypt := stampCreatedAt payload now
  ⟨salt, iv, aesGcmEncrypt key iv (.json payloadToEncrypt)⟩

def invalidStructureMsg : String := "Invalid backup structure after JSON parse."

def allFailedMsg : String :=
  "Decryption failed: Invalid passphrase or corrupted data across all attempted iteration counts."

/-- The plaintext-interpretation stage inside `decryptData`'s loop body:
`JSON.parse` the decrypted string; on success classify a non-null object
via the ordered chain and return it (the chain itself throws
`Invalid backup structure after JSON parse.` when nothing matches, also
for non-object values); on a `SyntaxError` return the legacy bare-secret
wrapper `{ wif: decryptedString }`; any other parse-stage error is
re-thrown. -/
def processPlain : Plain → Except JsError Json
  | .json parsedJson =>
    match classifyDecrypted parsedJson with
    | some _ => .ok parsedJson
    | none => .error (.error invalidStructureMsg)
  | .text decryptedString => .ok (.obj [("wif", .str decryptedString)])

/-- The outcome of one `deriveKey` + `crypto.subtle.decrypt` attempt. -/
inductive AttemptOutcome where
  | success (pt : Plain) : AttemptOutcome
  | failure (e : JsError) : AttemptOutcome

/-- The retry loop of `decryptData`, over the candidate iteration counts in
order, threading `lastError`.  Each round: attempt authenticated
decryption; on success run the plaintext stage and return its value —
both the attempt's failures and the plaintext stage's throws land in the
same `catch`, which records `lastError` and continues only when the error
is the authentication-tag failure, re-throwing anything else immediately.
After the loop: an `OperationError` `lastError` (or no attempt at all)
becomes the stable `DecryptionFailed` error, any other recorded error
would be re-thrown as itself. -/
def decryptLoop (attempt : Nat → AttemptOutcome) :
    List Nat → Option JsError → Except JsError Json
  | [], lastError =>
    .error (match lastError with
      | some e => if isOpError e then .error allFailedMsg else e
      | none => .error allFailedMsg)
  | iterations :: rest, _lastError =>
    match attempt iterations with
    | .success pt =>
      match processPlain pt with
      | .ok v => .ok v
      | .error e => if isOpError e then decryptLoop attempt rest (some e) else .error e
    | .failure e => if isOpError e then decryptLoop attempt rest (some e) else .error e

/-- The candidate-list resolution in `decryptData`:
`typeof attemptIterations === 'number' ? [n] : Array.isArray(...) ? list :
[RECOMMENDED_PBKDF2_ITERATIONS, LEGACY_PBKDF2_ITERATIONS]`. -/
def iterationCountsToTry (attemptIterations? : Option (Sum Nat (List Nat))) : List Nat :=
  match attemptIterations? with
  | some (.inl n) => [n]
  | some (.inr l) => l
  | none => [RECOMMENDED_PBKDF2_ITERATIONS, LEGACY_PBKDF2_ITERATIONS]

/-- `decryptData` from `src/crypto.ts` on a structurally well-formed
encrypted backup (the output shape of `encryptData`): the base64 decode
succeeds and the length check passes by construction (see
`EncryptedBackupStr`), the salt/IV/ciphertext split recovers the framed
fields, then the retry loop runs with the real attempt function. -/
def decryptData (enc : EncryptedBackupStr) (passphrase : String)
    (attemptIterations? : Option (Sum Nat (List Nat))) : Except JsError Json :=
  decryptLoop
    (fun iterations =>
      match aesGcmDecrypt (deriveKey passphrase enc.salt iterations) enc.iv enc.ct with
      | .ok pt => .success pt
      | .error e => .failure e)
    (iterationCountsToTry attemptIterations?) none

/-! The framing stage of `decryptData`, at the level of raw encoded
strings, for the claims about malformed input.  The post-framing pipeline
(`deriveKey` + `crypto.subtle.decrypt` per candidate) is abstracted as the
`subtleDecrypt` parameter, so a statement that holds for every
`subtleDecrypt` holds before any key derivation or decryption attempt. -/

/-- The value of one base64 alphabet character. -/
def base64Val (c : Char) : Option Nat :=
  let n := c.toNat
  if 65 ≤ n ∧ n ≤ 90 then some (n - 65)
  else if 97 ≤ n ∧ n ≤ 122 then some (n - 97 + 26)
  else if 48 ≤ n ∧ n ≤ 57 then some (n - 48 + 52)
  else if n = 43 then some 62
  else if n = 47 then some 63
  else none

/-- RFC 4648 base64 decoding by four-character chunks (char code 61 is the
padding `=`); models the correct base64 primitive
(`Utils.toArray(s, 'base64')`) the spec assumes. -/
def base64DecodeChunks : List Char → Option (List Nat)
  | [] => some []
  | c1 :: c2 :: c3 :: c4 :: rest =>
    match base64Val c1, base64Val c2 with
    | some v1, some v2 =>
      if c3.toNat = 61 ∧ c4.toNat = 61 then
        if rest = [] then some [v1 * 4 + v2 / 16] else none
      else
        match base64Val c3 with
        | some v3 =>
          if c4.toNat = 61 then
            if rest = [] then some [v1 * 4 + v2 / 16, (v2 % 16) * 16 + v3 / 4] else none
          else
            match base64Val c4 with
            | some v4 =>
              match base64DecodeChunks rest with
              | some bs =>
                some ([v1 * 4 + v2 / 16, (v2 % 16) * 16 + v3 / 4, (v3 % 4) * 64 + v4] ++ bs)
              | none => none
            | none => none
        | none => none
    | _, _ => none
  | _ => none

/-- Base64 decoding of a string. -/
def toArrayBase64 (s : String) : Option (List Nat) :=
  base64DecodeChunks s.data

def invalidB64Msg : String := "Decryption failed: Invalid Base64 input."
def emptyDecodeMsg : String := "Decryption failed: Invalid Base64 input (decoded to empty)."
def tooShortMsg : String := "Decryption failed: Encrypted data is too short."

/-- The framing stage of `decryptData` from `src/crypto.ts`, on the raw
encoded string: decode base64 (failure → `Invalid Base64 input.`), reject a
non-empty string decoding to nothing, reject fewer than `16 + 12` decoded
bytes (`Encrypted data is too short.`), then split salt/IV/ciphertext and
enter the retry loop, whose per-candidate decryption attempt is the
abstract `subtleDecrypt salt iv ciphertext passphrase iterations`. -/
def decryptDataFraming
    (subtleDecrypt : List Nat → List Nat → List Nat → String → Nat → AttemptOutcome)
    (encryptedBackup : String) (passphrase : String)
    (attemptIterations? : Option (Sum Nat (List Nat))) : Except JsError Json :=
  match toArrayBase64 encryptedBackup with
  | none => .error (.error invalidB64Msg)
  | some combinedBytes =>
    if encryptedBackup.length > 0 && combinedBytes.length == 0 then
      .error (.error emptyDecodeMsg)
    else if combinedBytes.length < SALT_LENGTH_BYTES + IV_LENGTH_BYTES then
      .error (.error tooShortMsg)
    else
      let salt := combinedBytes.take SALT_LENGTH_BYTES
      let iv := (combinedBytes.drop SALT_LENGTH_BYTES).take IV_LENGTH_BYTES
      let encryptedCiphertext := combinedBytes.drop (SALT_LENGTH_BYTES + IV_LENGTH_BYTES)
      decryptLoop
        (fun iterations => subtleDecrypt salt iv encryptedCiphertext passphrase iterations)
        (iterationCountsToTry attemptIterations?) none

/-! The public API wrappers, `src/index.ts`. -/

def invalidPayloadMsg : String :=
  "Invalid payload: Payload must be an object matching BapMasterBackup, BapMemberBackup, WifBackup, or OneSatBackup structure."
def passphraseEmptyMsg : String := "Invalid passphrase: Passphrase must be a non-empty string."
def passphraseShortMsg : String := "Invalid passphrase: Passphrase must be at least 8 characters long."
def invalidEncStrMsg : String := "Invalid encryptedString: Must be a non-empty string."

/-- `encryptBackup` from `src/index.ts`: validates the payload structure
first, then the passphrase (non-empty, then at least 8 characters; a
non-string passphrase cannot be represented here), then calls
`encryptData`.  The `typeof passphrase !== 'string'` half of the source
check is vacuous for `String` inputs. -/
def encryptBackup (payload : Json) (passphrase : String) (iterations? : Option Nat)
    (salt iv : List Nat) (now : String) : Except JsError EncryptedBackupStr :=
  if !isValidPayload payload then .error (.error invalidPayloadMsg)
  else if passphrase.length = 0 then .error (.error passphraseEmptyMsg)
  else if passphrase.length < 8 then .error (.error passphraseShortMsg)
  else .ok (encryptData payload passphrase iterations? salt iv now)

/-- `decryptBackup` from `src/index.ts` on a structurally well-formed
encrypted backup: the `encryptedString` non-emptiness check always passes
(a well-formed backup encodes to a non-empty base64 string), the
passphrase must be non-empty, then `decryptData` runs. -/
def decryptBackup (enc : EncryptedBackupStr) (passphrase : String)
    (attemptIterations? : Option (Sum Nat (List Nat))) : Except JsError Json :=
  if passphrase.length = 0 then .error (.error passphraseEmptyMsg)
  else decryptData enc passphrase attemptIterations?

/-! Helper lemmas. -/

/-- A field that passes the `typeof p.k === 'string'` check is present. -/
theorem isStrField_hasKey {v : Json} {key : String}
    (h : isStrField v key = true) : hasKey v key = true := by
  cases v with
  | obj fields =>
    simp only [isStrField, getKey] at h
    rcases hf : fields.find? (fun f => f.1 == key) with _ | f
    · rw [hf] at h; simp at h
    · have := List.find?_some hf
      have hmem := List.mem_of_find?_eq_some hf
      simp only [hasKey, List.any_eq_true]
      exact ⟨f, hmem, this⟩
  | null => simp [isStrField, getKey] at h
  | bool b => simp [isStrField, getKey] at h
  | num n => simp [isStrField, getKey] at h
  | str s => simp [isStrField, getKey] at h
  | arr xs => simp [isStrField, getKey] at h

/-- Every payload accepted by the encryption-time validator is assigned
some variant by the decryption-time classifier (the converse fails, and the
assigned variants can differ; see the counterexamples). -/
theorem valid_implies_classified {p : Json}
    (h : isValidPayload p = true) : (classifyDecrypted p).isSome = true := by
  unfold isValidPayload at h
  split at h
  · exact absurd h (by simp)
  · rename_i hgate
    have hgate' : truthy p = true ∧ jsTypeof p = "object" := by
      constructor
      · by_cases ht : truthy p = true
        · exact ht
        · exact absurd (by simp [Bool.not_eq_true] at ht; simp [ht]) hgate
      · by_cases ht : jsTypeof p = "object"
        · exact ht
        · exact absurd (by simp [ht]) hgate
    have hnn : (jsTypeof p == "object" && !isNull p) = true := by
      cases p <;> simp_all [truthy, jsTypeof, isNull]
    simp only [Bool.or_eq_true, Bool.and_eq_true, Bool.not_eq_true', and_assoc, or_assoc] at h
    unfold classifyDecrypted
    rw [hnn]
    simp only [if_true]
    split
    · rfl
    · split
      · rfl
      · split
        · rfl
        · split
          · rfl
          · split
            · rfl
            · rename_i h1 h2 h3 h4 h5
              rcases h with h | h | h | h | h
              · obtain ⟨hx, _, hi, _, hm, _⟩ := h
                exact absurd (by simp [hx, hi, hm]) h1
              · obtain ⟨hr, _, hi, _, hx⟩ := h
                exact absurd (by simp [hr, hi]) h2
              · obtain ⟨hw, _, hid, _⟩ := h
                exact absurd (by simp [hw, hid]) h3
              · obtain ⟨hw, _, hid, hx, hr⟩ := h
                exact absurd (by simp [hw, hid, hx, hr]) h5
              · obtain ⟨ho, _, hp, _, hid, _⟩ := h
                exact absurd (by simp [ho, hp, hid]) h4

/-- Stamping `createdAt` does not change the presence of any other key. -/
theorem hasKey_stamp (p : Json) (now : String) (k : String) (hk : k ≠ "createdAt") :
    hasKey (stampCreatedAt p now) k = hasKey p k := by
  cases p with
  | obj fields =>
    unfold stampCreatedAt
    dsimp only
    split
    · simp only [hasKey, List.any_map]
      congr 1
      funext f
      by_cases hc : f.1 == "createdAt" <;> simp [Function.comp, hc]
    · simp only [hasKey, List.any_append, List.any_cons, List.any_nil]
      have : ("createdAt" == k) = false := by
        simp only [beq_eq_false_iff_ne]
        exact fun hEq => hk hEq.symm
      simp [this]
  | null => rfl
  | bool b => rfl
  | num n => rfl
  | str s => rfl
  | arr xs => rfl

/-- Stamping `createdAt` does not change the JavaScript type. -/
theorem jsTypeof_stamp (p : Json) (now : String) :
    jsTypeof (stampCreatedAt p now) = jsTypeof p := by
  cases p with
  | obj fields => unfold stampCreatedAt; dsimp only; split <;> rfl
  | null => rfl
  | bool b => rfl
  | num n => rfl
  | str s => rfl
  | arr xs => rfl

/-- Stamping `createdAt` does not make a value `null`. -/
theorem isNull_stamp (p : Json) (now : String) :
    isNull (stampCreatedAt p now) = isNull p := by
  cases p with
  | obj fields => unfold stampCreatedAt; dsimp only; split <;> rfl
  | null => rfl
  | bool b => rfl
  | num n => rfl
  | str s => rfl
  | arr xs => rfl

/-- The decryption-time classifier does not look at `createdAt`, so the
stamping step of `encryptData` never changes how a payload classifies. -/
theorem classify_stamp (p : Json) (now : String) :
    classifyDecrypted (stampCreatedAt p now) = classifyDecrypted p := by
  unfold classifyDecrypted
  rw [jsTypeof_stamp, isNull_stamp,
    hasKey_stamp p now "xprv" (by decide), hasKey_stamp p now "ids" (by decide),
    hasKey_stamp p now "mnemonic" (by decide), hasKey_stamp p now "rootPk" (by decide),
    hasKey_stamp p now "wif" (by decide), hasKey_stamp p now "id" (by decide),
    hasKey_stamp p now "ordPk" (by decide), hasKey_stamp p now "payPk" (by decide),
    hasKey_stamp p now "identityPk" (by decide)]

/-- The plaintext stage never throws the authentication-tag failure: its
only throws are ordinary `Error`s. -/
theorem processPlain_not_op {pt : Plain} {e : JsError}
    (h : processPlain pt = .error e) : isOpError e = false := by
  cases pt with
  | json v =>
    simp only [processPlain] at h
    rcases hc : classifyDecrypted v with _ | var
    · rw [hc] at h
      simp only [Except.error.injEq] at h
      rw [← h]
      rfl
    · rw [hc] at h
      simp at h
  | text s => simp [processPlain] at h

/-- One round of the retry loop does not read the incoming `lastError`. -/
theorem decryptLoop_cons (attempt : Nat → AttemptOutcome) (c : Nat) (rest : List Nat)
    (l1 l2 : Option JsError) :
    decryptLoop attempt (c :: rest) l1 = decryptLoop attempt (c :: rest) l2 := rfl

/-- A prefix of candidates that all fail the authentication tag is skipped:
the loop behaves as if started at the first candidate past the prefix. -/
theorem decryptLoop_skips_op_failures (attempt : Nat → AttemptOutcome) (pre : List Nat)
    (c : Nat) (post : List Nat)
    (hpre : ∀ x ∈ pre, attempt x = .failure .operationError) (last : Option JsError) :
    decryptLoop attempt (pre ++ c :: post) last = decryptLoop attempt (c :: post) none := by
  induction pre generalizing last with
  | nil => exact decryptLoop_cons attempt c post last none
  | cons x pre ih =>
    have hx := hpre x (List.mem_cons_self x pre)
    rw [List.cons_append]
    show decryptLoop attempt (x :: (pre ++ c :: post)) last = _
    simp only [decryptLoop, hx, isOpError, if_true]
    exact ih (fun y hy => hpre y (List.mem_cons_of_mem x hy)) (some .operationError)

/-- When every candidate fails the authentication tag, the loop ends in the
stable `DecryptionFailed` error (also when the candidate list is empty,
via the `lastError ||` fallback, which carries the same message). -/
theorem decryptLoop_all_op (attempt : Nat → AttemptOutcome) (cands : List Nat)
    (h : ∀ x ∈ cands, attempt x = .failure .operationError) :
    ∀ last, last = none ∨ last = some .operationError →
    decryptLoop attempt cands last = .error (.error allFailedMsg) := by
  induction cands with
  | nil =>
    intro last hl
    rcases hl with rfl | rfl <;> simp [decryptLoop, isOpError]
  | cons c rest ih =>
    intro last hl
    have hc := h c (List.mem_cons_self c rest)
    simp only [decryptLoop, hc, isOpError, if_true]
    exact ih (fun y hy => h y (List.mem_cons_of_mem c hy)) (some .operationError) (Or.inr rfl)

/-- A non-empty base64 text never decodes to zero bytes: every decoded
four-character chunk contributes at least one byte. -/
theorem base64DecodeChunks_ne_nil (cs : List Char)
    (h : base64DecodeChunks cs = some []) (hne : cs ≠ []) : False := by
  match cs, h with
  | [], _ => exact hne rfl
  | [c1], h => simp [base64DecodeChunks] at h
  | [c1, c2], h => simp [base64DecodeChunks] at h
  | [c1, c2, c3], h => simp [base64DecodeChunks] at h
  | c1 :: c2 :: c3 :: c4 :: rest, h =>
    unfold base64DecodeChunks at h
    repeat' split at h
    all_goals simp_all

/-- A string of non-zero length has a non-empty character list. -/
theorem string_data_ne_nil {s : String} (hs : s.length ≠ 0) : s.data ≠ [] := by
  intro hd
  exact hs (by simp [String.length, hd])

/-- A non-empty string never base64-decodes to zero bytes. -/
theorem toArrayBase64_ne_nil {s : String} {bs : List Nat}
    (h : toArrayBase64 s = some bs) (hs : s.length ≠ 0) : bs ≠ [] := by
  intro hnil
  subst hnil
  exact base64DecodeChunks_ne_nil s.data h (string_data_ne_nil hs)

/-! Concrete payloads used in counterexamples and witnesses (field values
taken from, or shaped like, the repository's own test fixtures). -/

/-- A minimal Vault payload, as in `test/vault-backup.test.ts`. -/
def vaultPayloadEx : Json :=
  .obj [("encryptedVault", .str "application-encrypted-vault-data-base64-or-hex")]

/-- A BapMemberBackup payload. -/
def memberPayloadEx : Json :=
  .obj [("wif", .str "KyMZUNynwhjevQ"), ("id", .str "memberId")]

/-- A minimal YoursWalletBackup payload (payPk, ordPk and a derivation
path, no identityPk), as in `test/yours-wallet.test.ts`. -/
def yoursWalletPayloadEx : Json :=
  .obj [("payPk", .str "L1RrrnXkcKut5D"), ("ordPk", .str "L2RrrnXkcKut5D"),
        ("payDerivationPath", .str "m/44/236/0/1/0")]

/-- A OneSatBackup payload (the three key fields, nothing else). -/
def oneSatPayloadEx : Json :=
  .obj [("payPk", .str "L156TApxcSCDGQ"), ("ordPk", .str "KyMZUNynwhjevQ"),
        ("identityPk", .str "L4rprVahLjG4LW")]

/-- A payload both classifiers reject but the validator order exposes:
`rootPk` and `ids` present together with `xprv` (no mnemonic). -/
def rootPkWithXprvEx : Json :=
  .obj [("rootPk", .str "rootWif"), ("ids", .str "bapIds"), ("xprv", .str "xprv9s")]

/-- A payload in the overlap of the BareSecret and TriKey rules: a `wif`
together with the three TriKey key fields. -/
def wifWithTriKeyEx : Json :=
  .obj [("wif", .str "KyMZUNynwhjevQ"), ("ordPk", .str "KyMZUNynwhjevQ"),
        ("payPk", .str "L156TApxcSCDGQ"), ("identityPk", .str "L4rprVahLjG4LW")]

/-! The claims. -/

/-- C1: the spec claims `encryptBackup` / `decryptBackup` round-trip every
variant of spec section 3, including Vault, DerivedKeySet and
ArchiveBundle.  The code does not: `isValidPayload` accepts only the five
BAP/WIF/OneSat shapes, so `encryptBackup` rejects a syntactically valid
minimal Vault payload with the `InvalidPayload` error (for any passphrase,
salt, IV and timestamp), the decryption-time classifier could not return
it either, while the repository's own guard (`getBackupType`) and its test
suite treat it as a supported Vault backup.  This theorem evaluates the
code at the failing input. -/
theorem c1_vault_roundtrip_fails :
    isValidPayload vaultPayloadEx = false ∧
    encryptBackup vaultPayloadEx "strongBackupPassphrase!123" none [] []
        "2024-01-01T00:00:00.000Z" = .error (.error invalidPayloadMsg) ∧
    classifyDecrypted vaultPayloadEx = none ∧
    getBackupType vaultPayloadEx = "Vault" :=
  ⟨by decide, rfl, by decide, by decide⟩

/-- C2 counterexample: the encryption-time validator and the
decryption-time classifier do not implement one rule table.  A payload
with `rootPk`, `ids` and `xprv` (all strings) is rejected by
`isValidPayload` (its Type 42 branch requires the absence of `xprv`) yet
assigned the MasterType42 variant by the classifier in `decryptData`
(which has no such absence check); and on the BareSecret/TriKey overlap
the two first-match orders disagree: a `wif` together with the three
TriKey keys is BareSecret to the validator but TriKey to the classifier. -/
theorem c2_counterexample :
    (isValidPayload rootPkWithXprvEx = false ∧
     classifyDecrypted rootPkWithXprvEx = some .masterType42) ∧
    (validPayloadVariant wifWithTriKeyEx = some .bareSecret ∧
     classifyDecrypted wifWithTriKeyEx = some .triKey) :=
  ⟨⟨by decide, by decide⟩, ⟨by decide, by decide⟩⟩

/-- C2 (amended): the inclusion that does hold — every object accepted by
the encryption-time validator `isValidPayload` is assigned some variant by
the classifier inside `decryptData`; the converse inclusion and the
equality of assigned variants both fail (see the counterexample). -/
theorem c2_validator_refines_classifier (o : Json)
    (h : isValidPayload o = true) : (classifyDecrypted o).isSome = true :=
  valid_implies_classified h

/-- C2 witness: the inclusion at a concrete member payload. -/
theorem c2_validator_refines_classifier_witness :
    isValidPayload memberPayloadEx = true ∧
    (classifyDecrypted memberPayloadEx).isSome = true :=
  ⟨by decide, c2_validator_refines_classifier memberPayloadEx (by decide)⟩

/-- C5: the spec (and the repository's guards and tests) require a payload
with `payPk`, `ordPk` and `payDerivationPath` but no `identityPk` to
classify as DerivedKeySet (YoursWallet) under every classifier applied to
decrypted payloads.  `getBackupType` does classify it as `"YoursWallet"`
(never OneSat), but the classifier inside `decryptData` has no
DerivedKeySet rule at all: it matches nothing, so `decryptData` raises the
`Invalid backup structure after JSON parse.` error instead of returning
the payload (and `isValidPayload` rejects it, so `encryptBackup` cannot
produce such a backup either).  The TriKey half of the claim holds in both
classifiers.  This theorem evaluates the code at the failing input. -/
theorem c5_yours_wallet_divergence :
    classifyDecrypted yoursWalletPayloadEx = none ∧
    processPlain (.json yoursWalletPayloadEx) = .error (.error invalidStructureMsg) ∧
    isValidPayload yoursWalletPayloadEx = false ∧
    getBackupType yoursWalletPayloadEx = "YoursWallet" ∧
    isYoursWalletBackup yoursWalletPayloadEx = true ∧
    isOneSatBackup yoursWalletPayloadEx = false ∧
    classifyDecrypted oneSatPayloadEx = some .triKey ∧
    getBackupType oneSatPayloadEx = "OneSat" :=
  ⟨by decide, rfl, by decide, by decide, by decide, by decide, by decide, by decide⟩

/-- A string of length zero is the empty string. -/
theorem string_eq_empty_of_length {s : String} (h : s.length = 0) : s = "" := by
  cases s with
  | mk data =>
    cases data with
    | nil => rfl
    | cons c cs => simp [String.length] at h

/-- C6 counterexample: `encryptBackup` validates the payload before the
passphrase, so when both are invalid the error raised is `InvalidPayload`,
not `InvalidPassphrase` as the claim states ("passphrase validation is
step 1").  Input: the empty object (no variant matches) with the
five-character passphrase `short`. -/
theorem c6_counterexample :
    isValidPayload (Json.obj []) = false ∧
    ("short" : String).length < 8 ∧
    encryptBackup (Json.obj []) "short" none [] [] "2024-01-01T00:00:00.000Z"
      = .error (.error invalidPayloadMsg) ∧
    invalidPayloadMsg ≠ passphraseEmptyMsg ∧
    invalidPayloadMsg ≠ passphraseShortMsg :=
  ⟨by decide, by decide, rfl, by decide, by decide⟩

/-- C6 (amended): for every valid payload and every passphrase that is
empty or shorter than 8 characters, `encryptBackup` raises the
`InvalidPassphrase` error (the non-empty-string message when empty, the
minimum-length message otherwise) and performs no cryptographic work: the
result does not depend on the salt, IV, timestamp or iteration count, all
universally quantified here and absent from the conclusion.  When the
payload is invalid, payload validation fires first (see the
counterexample). -/
theorem c6_invalid_passphrase (p : Json) (pass : String) (iterations? : Option Nat)
    (salt iv : List Nat) (now : String)
    (hp : isValidPayload p = true) (hlen : pass.length < 8) :
    encryptBackup p pass iterations? salt iv now =
      .error (.error (if pass.length = 0 then passphraseEmptyMsg else passphraseShortMsg)) := by
  by_cases h0 : pass.length = 0
  · simp [encryptBackup, hp, h0]
  · simp [encryptBackup, hp, h0, hlen]

/-- C6 witness: the amended claim at a member payload and the passphrase
`short`. -/
theorem c6_invalid_passphrase_witness :
    (isValidPayload memberPayloadEx = true ∧ ("short" : String).length < 8) ∧
    encryptBackup memberPayloadEx "short" none [1] [2] "2024-01-01T00:00:00.000Z" =
      .error (.error (if ("short" : String).length = 0 then passphraseEmptyMsg
        else passphraseShortMsg)) :=
  ⟨⟨by decide, by decide⟩,
   c6_invalid_passphrase memberPayloadEx "short" none [1] [2] "2024-01-01T00:00:00.000Z"
     (by decide) (by decide)⟩

/-- C4: a backup encrypted with the legacy iteration count (100,000)
decrypts under the default candidate list, which is exactly
`[RECOMMENDED_PBKDF2_ITERATIONS, LEGACY_PBKDF2_ITERATIONS]` =
`[600000, 100000]` in that order: the recommended attempt fails the
authentication tag, the loop falls back to the legacy count and returns
the stamped payload.  Supplying only the recommended count as a single
number makes every attempt fail and `decryptData` raises the stable
`DecryptionFailed` error. -/
theorem c4_legacy_iteration_fallback (p : Json) (pass : String) (salt iv : List Nat)
    (now : String) (hp : isValidPayload p = true) :
    iterationCountsToTry none = [RECOMMENDED_PBKDF2_ITERATIONS, LEGACY_PBKDF2_ITERATIONS] ∧
    RECOMMENDED_PBKDF2_ITERATIONS = 600000 ∧
    LEGACY_PBKDF2_ITERATIONS = 100000 ∧
    decryptData (encryptData p pass (some LEGACY_PBKDF2_ITERATIONS) salt iv now) pass none
      = .ok (stampCreatedAt p now) ∧
    decryptData (encryptData p pass (some LEGACY_PBKDF2_ITERATIONS) salt iv now) pass
        (some (.inl RECOMMENDED_PBKDF2_ITERATIONS))
      = .error (.error allFailedMsg) := by
  obtain ⟨var, hvar⟩ := Option.isSome_iff_exists.mp (valid_implies_classified hp)
  refine ⟨rfl, rfl, rfl, ?_, ?_⟩
  · unfold decryptData encryptData iterationCountsToTry
    simp only [Option.getD_some, aesGcmEncrypt]
    rw [show ([RECOMMENDED_PBKDF2_ITERATIONS, LEGACY_PBKDF2_ITERATIONS] : List Nat)
        = [RECOMMENDED_PBKDF2_ITERATIONS] ++ LEGACY_PBKDF2_ITERATIONS :: [] from rfl]
    rw [decryptLoop_skips_op_failures _ _ _ _ ?hpre none]
    case hpre =>
      intro x hx
      rcases List.mem_singleton.mp hx with rfl
      simp [aesGcmDecrypt, deriveKey, DerivedKey.mk.injEq,
        RECOMMENDED_PBKDF2_ITERATIONS, LEGACY_PBKDF2_ITERATIONS]
    simp only [decryptLoop, deriveKey]
    rw [show aesGcmDecrypt ⟨pass, salt, LEGACY_PBKDF2_ITERATIONS⟩ iv
        ⟨⟨pass, salt, LEGACY_PBKDF2_ITERATIONS⟩, iv, .json (stampCreatedAt p now)⟩
        = .ok (.json (stampCreatedAt p now)) from by
      simp [aesGcmDecrypt]]
    simp only [processPlain, classify_stamp, hvar]
  · unfold decryptData encryptData iterationCountsToTry
    simp only [Option.getD_some, aesGcmEncrypt]
    refine decryptLoop_all_op _ _ ?_ none (Or.inl rfl)
    intro x hx
    rcases List.mem_singleton.mp hx with rfl
    simp [aesGcmDecrypt, deriveKey, DerivedKey.mk.injEq,
      RECOMMENDED_PBKDF2_ITERATIONS, LEGACY_PBKDF2_ITERATIONS]

/-- C4 witness: the fallback at a concrete member payload. -/
theorem c4_legacy_iteration_fallback_witness :
    isValidPayload memberPayloadEx = true ∧
    decryptData (encryptData memberPayloadEx "password1" (some LEGACY_PBKDF2_ITERATIONS)
        [1] [2] "2024-01-01T00:00:00.000Z") "password1" none
      = .ok (stampCreatedAt memberPayloadEx "2024-01-01T00:00:00.000Z") ∧
    decryptData (encryptData memberPayloadEx "password1" (some LEGACY_PBKDF2_ITERATIONS)
        [1] [2] "2024-01-01T00:00:00.000Z") "password1"
        (some (.inl RECOMMENDED_PBKDF2_ITERATIONS))
      = .error (.error allFailedMsg) :=
  ⟨by decide,
   (c4_legacy_iteration_fallback memberPayloadEx "password1" [1] [2]
     "2024-01-01T00:00:00.000Z" (by decide)).2.2.2.1,
   (c4_legacy_iteration_fallback memberPayloadEx "password1" [1] [2]
     "2024-01-01T00:00:00.000Z" (by decide)).2.2.2.2⟩

/-- C3 counterexample: the claim quantifies over every `otherPass`
different from `pass`, but for the empty string `decryptBackup` raises the
`Invalid passphrase: Passphrase must be a non-empty string.` error from
its input validation (pinned by the repository's own test
`should throw if passphrase is an empty string for decrypt`), not the
`DecryptionFailed` error. -/
theorem c3_counterexample :
    encryptBackup memberPayloadEx "password1" none [1] [2] "2024-01-01T00:00:00.000Z"
      = .ok (encryptData memberPayloadEx "password1" none [1] [2]
          "2024-01-01T00:00:00.000Z") ∧
    ("" : String) ≠ "password1" ∧
    decryptBackup (encryptData memberPayloadEx "password1" none [1] [2]
        "2024-01-01T00:00:00.000Z") "" none
      = .error (.error passphraseEmptyMsg) ∧
    passphraseEmptyMsg ≠ allFailedMsg :=
  ⟨rfl, by decide, rfl, by decide⟩

/-- C3 (amended): for every valid payload, passphrase of length at least 8
and non-empty `otherPass` different from `pass`, decrypting
`encryptBackup p pass` with `otherPass` raises the stable
`DecryptionFailed` error, for every candidate iteration list; and in
general, whenever every candidate iteration count ends in an
authentication-tag failure, the retry loop of `decryptData` raises that
same `DecryptionFailed` error, which is distinct from the framing error
and from the unrecognized-shape error.  (For the empty `otherPass` the
input validation of `decryptBackup` fires instead; see the
counterexample.) -/
theorem c3_wrong_passphrase (p : Json) (pass otherPass : String)
    (iterations? : Option Nat) (salt iv : List Nat) (now : String)
    (cands? : Option (Sum Nat (List Nat))) (enc : EncryptedBackupStr)
    (hp : isValidPayload p = true) (hlen : 8 ≤ pass.length)
    (hne : otherPass ≠ pass) (hne0 : otherPass ≠ "")
    (henc : encryptBackup p pass iterations? salt iv now = .ok enc) :
    decryptBackup enc otherPass cands? = .error (.error allFailedMsg) ∧
    (∀ attempt cands, (∀ c ∈ cands, attempt c = .failure .operationError) →
      decryptLoop attempt cands none = .error (.error allFailedMsg)) ∧
    allFailedMsg ≠ tooShortMsg ∧ allFailedMsg ≠ invalidStructureMsg := by
  have h0 : pass.length ≠ 0 := by omega
  have h8 : ¬pass.length < 8 := by omega
  have henc' : encryptData p pass iterations? salt iv now = enc := by
    unfold encryptBackup at henc
    rw [hp] at henc
    simp [h0, h8] at henc
    exact henc
  refine ⟨?_, ?_, by decide, by decide⟩
  · subst henc'
    unfold decryptBackup
    have ho0 : ¬otherPass.length = 0 := fun hz => hne0 (string_eq_empty_of_length hz)
    rw [if_neg ho0]
    unfold decryptData encryptData
    simp only [aesGcmEncrypt]
    refine decryptLoop_all_op _ _ ?_ none (Or.inl rfl)
    intro x hx
    simp only [aesGcmDecrypt, deriveKey]
    rw [if_neg (by
      rintro ⟨hkey, -⟩
      exact hne (congrArg DerivedKey.passphrase hkey).symm)]
  · intro attempt cands h
    exact decryptLoop_all_op attempt cands h none (Or.inl rfl)

/-- C3 witness: a wrong (non-empty) passphrase at a concrete member
payload. -/
theorem c3_wrong_passphrase_witness :
    (isValidPayload memberPayloadEx = true ∧ 8 ≤ ("password1" : String).length ∧
     ("password2" : String) ≠ "password1" ∧ ("password2" : String) ≠ "" ∧
     encryptBackup memberPayloadEx "password1" none [1] [2] "2024-01-02T00:00:00.000Z"
       = .ok (encryptData memberPayloadEx "password1" none [1] [2]
           "2024-01-02T00:00:00.000Z")) ∧
    decryptBackup (encryptData memberPayloadEx "password1" none [1] [2]
        "2024-01-02T00:00:00.000Z") "password2" none
      = .error (.error allFailedMsg) :=
  ⟨⟨by decide, by decide, by decide, by decide, rfl⟩,
   (c3_wrong_passphrase memberPayloadEx "password1" "password2" none [1] [2]
     "2024-01-02T00:00:00.000Z" none _ (by decide) (by decide) (by decide)
     (by decide) rfl).1⟩

/-- C7: for every input string whose base64 decoding yields fewer than
`16 + 12` bytes, the framing stage of `decryptData` raises the
`Encrypted data is too short.` framing error, for every passphrase, every
candidate iteration list and every behaviour of the underlying
key-derivation/decryption primitive (so before any key derivation or
decryption attempt and without retrying); the error is distinct from the
`DecryptionFailed` error. -/
theorem c7_short_input_framing_error
    (subtleDecrypt : List Nat → List Nat → List Nat → String → Nat → AttemptOutcome)
    (s : String) (bs : List Nat) (pass : String)
    (cands? : Option (Sum Nat (List Nat)))
    (hdec : toArrayBase64 s = some bs)
    (hlen : bs.length < SALT_LENGTH_BYTES + IV_LENGTH_BYTES) :
    decryptDataFraming subtleDecrypt s pass cands? = .error (.error tooShortMsg) ∧
    tooShortMsg ≠ allFailedMsg := by
  refine ⟨?_, by decide⟩
  unfold decryptDataFraming
  rw [hdec]
  dsimp only
  have hcond : (decide (s.length > 0) && (bs.length == 0)) = false := by
    rcases hd : bs with _ | ⟨b, bs0⟩
    · by_cases hs : s.length = 0
      · simp [hs]
      · exact absurd rfl (toArrayBase64_ne_nil (hd ▸ hdec) hs)
    · simp
  rw [hcond]
  simp [hlen]

/-- C7 witness: the four-character string `AAAA` decodes to three bytes. -/
theorem c7_short_input_framing_error_witness :
    (toArrayBase64 "AAAA" = some [0, 0, 0] ∧
     ([0, 0, 0] : List Nat).length < SALT_LENGTH_BYTES + IV_LENGTH_BYTES) ∧
    decryptDataFraming (fun _ _ _ _ _ => .failure .operationError) "AAAA" "password1" none
      = .error (.error tooShortMsg) :=
  ⟨⟨by decide, by decide⟩,
   (c7_short_input_framing_error (fun _ _ _ _ _ => .failure .operationError) "AAAA"
     [0, 0, 0] "password1" none (by decide) (by decide)).1⟩

/-- C8: the retry loop of `decryptData`, run over the candidate list in
order: after a prefix of candidates that all fail the authentication tag,
(i) a candidate failing with any other error aborts the loop and
propagates that error unchanged, (ii) a successful candidate whose
plaintext stage succeeds returns that value, and (iii) a successful
candidate whose plaintext stage throws aborts with that error — in all
three cases the candidates after the deciding one (`post`, universally
quantified and absent from each conclusion) are never consulted. -/
theorem c8_retry_loop_policy (attempt : Nat → AttemptOutcome) (pre : List Nat)
    (c : Nat) (post : List Nat)
    (hpre : ∀ x ∈ pre, attempt x = .failure .operationError) :
    (∀ e, attempt c = .failure e → isOpError e = false →
      decryptLoop attempt (pre ++ c :: post) none = .error e) ∧
    (∀ pt v, attempt c = .success pt → processPlain pt = .ok v →
      decryptLoop attempt (pre ++ c :: post) none = .ok v) ∧
    (∀ pt e, attempt c = .success pt → processPlain pt = .error e →
      decryptLoop attempt (pre ++ c :: post) none = .error e) := by
  rw [decryptLoop_skips_op_failures attempt pre c post hpre none]
  refine ⟨?_, ?_, ?_⟩
  · intro e hc hop
    simp [decryptLoop, hc, hop]
  · intro pt v hc hpt
    simp [decryptLoop, hc, hpt]
  · intro pt e hc hpt
    simp [decryptLoop, hc, hpt, processPlain_not_op hpt]

/-- A decryption-attempt stub for the loop witnesses: the authentication
tag fails at candidate 1 and the given outcome happens otherwise. -/
def attemptStub (outcome : AttemptOutcome) : Nat → AttemptOutcome :=
  fun n => if n = 1 then .failure .operationError else outcome

/-- C8 witness: candidate 1 fails the tag, candidate 2 fails with an
ordinary error, candidate 3 is never reached. -/
theorem c8_retry_loop_policy_witness :
    (∀ x ∈ [1], attemptStub (.failure (.error "boom")) x = .failure .operationError) ∧
    decryptLoop (attemptStub (.failure (.error "boom"))) [1, 2, 3] none
      = .error (.error "boom") := by
  have hpre : ∀ x ∈ [1], attemptStub (.failure (.error "boom")) x
      = .failure .operationError := by
    intro x hx
    rcases List.mem_singleton.mp hx with rfl
    rfl
  exact ⟨hpre,
    (c8_retry_loop_policy (attemptStub (.failure (.error "boom"))) [1] 2 [3] hpre).1
      (.error "boom") rfl rfl⟩

/-- C9: when an authenticated decryption attempt succeeds and the
plaintext is not syntactically valid JSON (after any prefix of
authentication-tag failures), the loop returns the BareSecret-shaped
object whose `wif` field is the raw decrypted string, with no `label` and
no `createdAt`, rather than raising an error. -/
theorem c9_bare_secret_fallback (attempt : Nat → AttemptOutcome) (pre : List Nat)
    (c : Nat) (post : List Nat) (s : String)
    (hpre : ∀ x ∈ pre, attempt x = .failure .operationError)
    (hc : attempt c = .success (.text s)) :
    decryptLoop attempt (pre ++ c :: post) none = .ok (.obj [("wif", .str s)]) ∧
    getKey (.obj [("wif", .str s)]) "wif" = some (.str s) ∧
    hasKey (.obj [("wif", .str s)]) "label" = false ∧
    hasKey (.obj [("wif", .str s)]) "createdAt" = false := by
  refine ⟨?_, rfl, rfl, rfl⟩
  rw [decryptLoop_skips_op_failures attempt pre c post hpre none]
  simp [decryptLoop, hc, processPlain]

/-- C9 witness: a non-JSON plaintext decrypted at the second candidate. -/
theorem c9_bare_secret_fallback_witness :
    (∀ x ∈ [1], attemptStub (.success (.text "KyMZUNynwhjevQ")) x
      = .failure .operationError) ∧
    decryptLoop (attemptStub (.success (.text "KyMZUNynwhjevQ"))) [1, 2, 3] none
      = .ok (.obj [("wif", .str "KyMZUNynwhjevQ")]) := by
  have hpre : ∀ x ∈ [1], attemptStub (.success (.text "KyMZUNynwhjevQ")) x
      = .failure .operationError := by
    intro x hx
    rcases List.mem_singleton.mp hx with rfl
    rfl
  exact ⟨hpre,
    (c9_bare_secret_fallback (attemptStub (.success (.text "KyMZUNynwhjevQ"))) [1] 2 [3]
      "KyMZUNynwhjevQ" hpre rfl).1⟩

/-- C10: when an authenticated decryption attempt succeeds and the
plaintext is syntactically valid JSON whose value is not a non-null object
(a number, a string, a boolean or null) — or is a JSON array, which passes
the `typeof` guard but matches no variant's key rules — the loop neither
returns it as a bare secret nor classifies it: it raises the same
`Invalid backup structure after JSON parse.` error as an unmatched JSON
object. -/
theorem c10_nonobject_json_rejected (attempt : Nat → AttemptOutcome) (pre : List Nat)
    (c : Nat) (post : List Nat) (v : Json)
    (hpre : ∀ x ∈ pre, attempt x = .failure .operationError)
    (hc : attempt c = .success (.json v))
    (hv : jsTypeof v ≠ "object" ∨ v = .null ∨ ∃ xs, v = .arr xs) :
    decryptLoop attempt (pre ++ c :: post) none
      = .error (.error invalidStructureMsg) := by
  have hclass : classifyDecrypted v = none := by
    rcases hv with hv | rfl | ⟨xs, rfl⟩
    · unfold classifyDecrypted
      rw [if_neg]
      simp [hv]
    · rfl
    · simp [classifyDecrypted, hasKey, jsTypeof, isNull]
  rw [decryptLoop_skips_op_failures attempt pre c post hpre none]
  simp [decryptLoop, hc, processPlain, hclass, isOpError]

/-- C10 witness: the JSON number 42 decrypted at the second candidate. -/
theorem c10_nonobject_json_rejected_witness :
    (∀ x ∈ [1], attemptStub (.success (.json (.num 42))) x = .failure .operationError) ∧
    jsTypeof (.num 42) ≠ "object" ∧
    decryptLoop (attemptStub (.success (.json (.num 42)))) [1, 2, 3] none
      = .error (.error invalidStructureMsg) := by
  have hpre : ∀ x ∈ [1], attemptStub (.success (.json (.num 42))) x
      = .failure .operationError := by
    intro x hx
    rcases List.mem_singleton.mp hx with rfl
    rfl
  exact ⟨hpre, by decide,
    c10_nonobject_json_rejected (attemptStub (.success (.json (.num 42)))) [1] 2 [3]
      (.num 42) hpre rfl (Or.inl (by decide))⟩

end BitcoinBackup
